import Mathlib

/-!
Verification of the checkout-demo server of the skybridge repository.

Shallow embedding of:
- `src/examples/checkout-demo/src/lib/stripe.ts` (key validation, the
  checkout aggregation inside `getCheckoutSession`, `getProducts` product
  formatting, `getMockProducts`);
- `src/examples/checkout-demo/src/server.ts` (the `list_products` and
  `buy_products` tool handlers, input validation via the zod schema, and the
  express `/mcp` routing over the session/transport map);
- `src/examples/checkout-demo/src/widgets/list_products.tsx` (the client
  purchase state and `handleCheckout`).

Modelling conventions: JavaScript numbers are modelled as `ℚ` where the code
can receive non-integral values (`Math.floor` becomes `Rat.floor`) and as
`Int` where the zod schema guarantees integers; a JS `Record<string, T>`
used as a dictionary is modelled as an association list holding the keys in
insertion order, and `Object.entries` enumeration is modelled on top of it
(`objectEntries`) the way ECMAScript prescribes for plain objects:
array-index keys (canonical numeric strings below 2^32 - 1) first in
ascending numeric order, then the remaining string keys in insertion order;
truthiness tests on strings (`if (s)`) are modelled as `s ≠ ""`; `async`
functions that can throw are modelled with `Except`, and external calls
(the Stripe API) are passed in as explicit arguments together with a count
of how many times the handler performs the call.
-/

namespace Skybridge

/-- The `CheckoutItem` type of `lib/stripe.ts`: `priceId: string` and
`quantity: number` (which may be non-integral or non-positive on the way into
the aggregator). -/
structure CheckoutItem where
  priceId : String
  quantity : ℚ
deriving DecidableEq

/-- The `FormattedProduct` type of `lib/stripe.ts`. -/
structure FormattedProduct where
  id : String
  priceId : String
  image : Option String
  name : String
  description : Option String
  price : Int
  currency : String
deriving DecidableEq

/-- A Stripe price object, as used by `getProducts` after expanding
`default_price`. -/
structure StripePrice where
  id : String
  unit_amount : Option Int
  currency : String
deriving DecidableEq

/-- A Stripe product object, as consumed by `getProducts`. -/
structure StripeProduct where
  id : String
  name : String
  description : Option String
  images : List String
  default_price : Option StripePrice
deriving DecidableEq

/-- The Stripe checkout session object as used by the `buy_products`
handler (`session.id`, `session.url`). -/
structure StripeSession where
  id : String
  url : String
deriving DecidableEq

/-- String `startsWith`, evaluated on the underlying character lists (the
semantics of `String.startsWith` from the source). -/
def strStartsWith (s pre : String) : Bool :=
  pre.data.isPrefixOf s.data

/-- stripe.ts: `const isValidStripeKey = stripeKey && (stripeKey.startsWith("sk_test_") || stripeKey.startsWith("sk_live_"))`.
An absent key and the empty string are falsy. -/
def isValidStripeKey (key : Option String) : Bool :=
  match key with
  | none => false
  | some k => (k != "") && (strStartsWith k "sk_test_" || strStartsWith k "sk_live_")

/-- The message of the error thrown by `getCheckoutSession` and
`getProducts` when the Stripe client is null. -/
def notConfiguredMsg : String :=
  "Stripe is not configured. Set STRIPE_SECRET_KEY (sk_test_... or sk_live_...)."

/-- server.ts: `const USE_MOCK = !process.env.STRIPE_SECRET_KEY` — mock mode
exactly when the key is absent (or the empty string, which is falsy). -/
def useMock (key : Option String) : Bool :=
  match key with
  | none => true
  | some k => k == ""

/-- stripe.ts: `Math.max(1, Math.floor(quantity))`. -/
def safeQuantity (q : ℚ) : Int :=
  max 1 q.floor

/-- Lookup in an association list keyed by strings (JS `acc[priceId]` /
`Map.get`). -/
def lookupAssoc {α : Type} : List (String × α) → String → Option α
  | [], _ => none
  | kv :: rest, p => if kv.1 = p then some kv.2 else lookupAssoc rest p

/-- One step of the reducer in `getCheckoutSession`:
`acc[priceId] = (acc[priceId] ?? 0) + safeQuantity`; assigning to a key a JS
object already holds keeps its position, assigning a fresh key appends it. -/
def addItem (acc : List (String × Int)) (pid : String) (q : ℚ) : List (String × Int) :=
  match lookupAssoc acc pid with
  | some _ => acc.map fun kv => if kv.1 = pid then (kv.1, kv.2 + safeQuantity q) else kv
  | none => acc ++ [(pid, safeQuantity q)]

/-- The aggregation in `getCheckoutSession`: `items.reduce(...)` starting
from the empty record; the association list carries the record's keys in
insertion order, and `objectEntries` below gives its `Object.entries`
enumeration. -/
def quantityByPriceId (items : List CheckoutItem) : List (String × Int) :=
  items.foldl (fun acc it => addItem acc it.priceId it.quantity) []

/-- The sum of sanitized quantities of the input entries carrying a given
priceId (the quantity the aggregation is specified to give that priceId). -/
def sumSanitized (items : List CheckoutItem) (p : String) : Int :=
  ((items.filter fun it => decide (it.priceId = p)).map fun it => safeQuantity it.quantity).sum

/-- First-seen order of the priceIds of the input: each id listed at the
position of its first occurrence, given the ids already seen. -/
def firstOccAux (seen : List String) : List String → List String
  | [] => []
  | a :: l => if a ∈ seen then firstOccAux seen l else a :: firstOccAux (a :: seen) l

/-- stripe.ts `getProducts`: formatting of one product with its (expanded)
default price. -/
def formatOne (p : StripeProduct) (price : StripePrice) : FormattedProduct :=
  { id := p.id
    priceId := price.id
    image := p.images.head?
    name := p.name
    description := p.description
    price := price.unit_amount.getD 0
    currency := price.currency.toUpper }

/-- The placeholder standing for the unchecked `as Stripe.Price` cast in
`getProducts`; the preceding filter guarantees it is never used. -/
def dummyPrice : StripePrice :=
  { id := "", unit_amount := none, currency := "" }

/-- stripe.ts `getProducts`: `products.filter((product) => product.default_price).map(...)`. -/
def formatProducts (ps : List StripeProduct) : List FormattedProduct :=
  (ps.filter fun p => p.default_price.isSome).map fun p =>
    formatOne p (p.default_price.getD dummyPrice)

/-- stripe.ts `getProducts` as a fallible call: throws when the Stripe
client is null, otherwise formats the product list returned by the API
(passed in as `ps`). -/
def getProductsResult (key : Option String) (ps : List StripeProduct) :
    Except String (List FormattedProduct) :=
  if isValidStripeKey key then .ok (formatProducts ps) else .error notConfiguredMsg

/-- stripe.ts `getMockProducts`: the fixed fallback dataset. -/
def getMockProducts : List FormattedProduct :=
  [ { id := "prod_1"
      priceId := "price_1"
      image := some "https://images.unsplash.com/photo-1546519638-68e109498ffc?w=200"
      name := "Wilson Basketball"
      description := some "Official NBA game ball"
      price := 6499
      currency := "USD" },
    { id := "prod_2"
      priceId := "price_2"
      image := some "https://images.unsplash.com/photo-1579952363873-27f3bade9f55?w=200"
      name := "Nike Soccer Ball"
      description := some "FIFA approved match ball"
      price := 3999
      currency := "USD" },
    { id := "prod_3"
      priceId := "price_3"
      image := some "https://images.unsplash.com/photo-1612872087720-bb876e2e67d1?w=200"
      name := "Tennis Racket"
      description := some "Professional grade racket"
      price := 12999
      currency := "USD" } ]

/-- The structured content a tool result can carry in server.ts. -/
inductive StructuredContent where
  | empty
  | products (products : List FormattedProduct)
  | checkout (checkoutSessionId : String) (checkoutSessionUrl : String)
deriving DecidableEq

/-- A tool call result: text content, structured content, and the error
flag (absent in the source means `false`). -/
structure ToolResult where
  content : List String
  structuredContent : StructuredContent
  isError : Bool := false
deriving DecidableEq

/-- server.ts `list_products` handler:
`const products = USE_MOCK ? getMockProducts() : await getProducts()`, then a
single result carrying the widget HTML and the products; no try/catch, so a
throwing `getProducts` makes the handler throw. -/
def listProductsHandler (key : Option String) (ps : List StripeProduct)
    (widgetHtml : String) : Except String ToolResult :=
  if useMock key then
    .ok { content := [widgetHtml], structuredContent := .products getMockProducts }
  else
    (getProductsResult key ps).map fun products =>
      { content := [widgetHtml], structuredContent := .products products }

/-- An item as the `buy_products` handler receives it: the zod schema
`z.number().int().min(1)` guarantees the quantity is an integer, so it is
modelled as `Int` here. -/
structure ValidatedItem where
  priceId : String
  quantity : Int
deriving DecidableEq

/-- Lower-case hex digit of a value below 16 (JS number-to-hex formatting
inside `JSON.stringify` unicode escapes). -/
def toHexLower (n : Nat) : Char :=
  if n < 10 then Char.ofNat (48 + n) else Char.ofNat (87 + n)

/-- Upper-case hex digit of a value below 16 (`encodeURIComponent` percent
escapes use upper case). -/
def toHexUpper (n : Nat) : Char :=
  if n < 10 then Char.ofNat (48 + n) else Char.ofNat (55 + n)

/-- JSON.stringify escaping of one character of a string value. -/
def jsonEscapeChar (c : Char) : String :=
  if c.toNat = 34 then "\\\""
  else if c.toNat = 92 then "\\\\"
  else if c.toNat = 8 then "\\b"
  else if c.toNat = 9 then "\\t"
  else if c.toNat = 10 then "\\n"
  else if c.toNat = 12 then "\\f"
  else if c.toNat = 13 then "\\r"
  else if c.toNat < 32 then
    "\\u00" ++ String.mk [toHexLower (c.toNat / 16), toHexLower (c.toNat % 16)]
  else String.mk [c]

/-- JSON.stringify escaping of a whole string value (without the
surrounding quotes). -/
def jsonEscape (s : String) : String :=
  String.join (s.data.map jsonEscapeChar)

/-- JSON.stringify of one item object; key order is the schema's
declaration order (priceId, then quantity). -/
def jsonOfItem (it : ValidatedItem) : String :=
  "\x7b\"priceId\":\"" ++ jsonEscape it.priceId ++ "\",\"quantity\":"
    ++ toString it.quantity ++ "\x7d"

/-- `JSON.stringify(items)` for the items array. -/
def jsonOfItems (items : List ValidatedItem) : String :=
  "[" ++ String.intercalate "," (items.map jsonOfItem) ++ "]"

/-- The bytes `encodeURIComponent` leaves unescaped: ASCII letters, digits,
and `- _ . ! ~ * ( )` together with the apostrophe (code 39). -/
def isURIUnreserved (b : UInt8) : Bool :=
  let n := b.toNat
  decide ((65 ≤ n ∧ n ≤ 90) ∨ (97 ≤ n ∧ n ≤ 122) ∨ (48 ≤ n ∧ n ≤ 57) ∨
    n = 45 ∨ n = 95 ∨ n = 46 ∨ n = 33 ∨ n = 126 ∨ n = 42 ∨ n = 39 ∨ n = 40 ∨ n = 41)

/-- Percent-encoding of one byte, `%XX` with upper-case hex. -/
def percentEncode (b : UInt8) : String :=
  String.mk [Char.ofNat 37, toHexUpper (b.toNat / 16), toHexUpper (b.toNat % 16)]

/-- `encodeURIComponent`: UTF-8 encode, keep unreserved bytes, percent-escape
the rest. -/
def encodeURIComponent (s : String) : String :=
  String.join (s.toUTF8.toList.map fun b =>
    if isURIUnreserved b then String.mk [Char.ofNat b.toNat] else percentEncode b)

/-- The mock checkout URL built by the `buy_products` handler in mock mode:
the fixed prefix followed by the URL-encoded JSON of the items. -/
def mockCheckoutUrl (items : List ValidatedItem) : String :=
  "https://checkout.stripe.com/mock?items=" ++ encodeURIComponent (jsonOfItems items)

/-- server.ts `buy_products` handler. `useMockMode` is `USE_MOCK`, `now` is
`Date.now()`, `ext` is the outcome of the (single) `getCheckoutSession`
call; the second component counts how many times that external call was
performed. The mock branch never calls out; the live branch calls once and
catches a throw into an error-flagged result with empty structured
content. -/
def buyProductsHandler (useMockMode : Bool) (now : Nat) (items : List ValidatedItem)
    (ext : Except String StripeSession) : ToolResult × Nat :=
  if useMockMode then
    ({ content := ["[Checkout](" ++ mockCheckoutUrl items ++ ") (mock)"]
       structuredContent := .checkout ("cs_mock_" ++ toString now) (mockCheckoutUrl items)
       isError := false }, 0)
  else
    match ext with
    | .ok session =>
      ({ content := ["[Checkout](" ++ session.url ++ ")"]
         structuredContent := .checkout session.id session.url
         isError := false }, 1)
    | .error _ =>
      ({ content := ["Checkout failed. Try again."]
         structuredContent := .empty
         isError := true }, 1)

/-- The zod check on one item: `z.number().int().min(1)` (the priceId check
is only `z.string()`, which accepts every string). -/
def validItem (it : CheckoutItem) : Bool :=
  decide (it.quantity.den = 1) && decide (1 ≤ it.quantity)

/-- The zod check on the `buy_products` input: `z.array(...).min(1)`. -/
def validateBuyProductsInput (items : List CheckoutItem) : Bool :=
  decide (1 ≤ items.length) && items.all validItem

/-- An item after zod validation (an integral quantity carried as `Int`). -/
def toValidatedItem (it : CheckoutItem) : ValidatedItem :=
  { priceId := it.priceId, quantity := it.quantity.num }

/-- The dispatch of a `buy_products` call: the MCP layer checks the zod
schema before the handler runs; `none` is a rejected call (validation error,
no aggregation, no external call). -/
def buyProductsDispatch (useMockMode : Bool) (now : Nat) (items : List CheckoutItem)
    (ext : Except String StripeSession) : Option (ToolResult × Nat) :=
  if validateBuyProductsInput items then
    some (buyProductsHandler useMockMode now (items.map toValidatedItem) ext)
  else none

/-- The HTTP methods distinguished by the express `/mcp` route. -/
inductive HttpMethod where
  | GET
  | POST
  | DELETE
  | other
deriving DecidableEq

/-- What the `app.all("/mcp")` handler does with one request. -/
inductive McpOutcome where
  | respond400
  | delegateExisting (transport : Nat)
  | createAndDelegate
deriving DecidableEq

/-- server.ts: `sessionId ? transports.get(sessionId) : undefined` — an
absent or empty (falsy) header resolves to no transport. -/
def resolveTransport (sessionId : Option String) (transports : List (String × Nat)) :
    Option Nat :=
  match sessionId with
  | none => none
  | some sid => if sid = "" then none else lookupAssoc transports sid

/-- The `app.all("/mcp")` handler: if a transport resolves, delegate to it;
otherwise, for POST or GET, construct a fresh transport, connect it and
delegate; otherwise answer 400 `No valid session`. The handler itself never
inserts into the transports map (insertion happens in the SDK's
session-initialized callback). -/
def handleMcpAll (method : HttpMethod) (sessionId : Option String)
    (transports : List (String × Nat)) : McpOutcome :=
  match resolveTransport sessionId transports with
  | some t => .delegateExisting t
  | none =>
    if method = HttpMethod.POST ∨ method = HttpMethod.GET then .createAndDelegate
    else .respond400

/-- The client purchase state of the widget: selected quantities, the status
message, the checkout link, and the submission flag. -/
structure ClientPurchaseState where
  quantities : List (String × Int)
  status : Option String
  checkoutUrl : Option String
  isSubmitting : Bool
deriving DecidableEq

/-- The externally visible actions `handleCheckout` can perform. -/
inductive ClientAction where
  | openExternal (url : String)
  | callBuyProducts (items : List ValidatedItem)
deriving DecidableEq

/-- widgets/list_products.tsx: the items submitted to `buy_products` —
`Object.entries(quantities).map(...).filter((item) => item.quantity > 0)`. -/
def submitItems (s : ClientPurchaseState) : List ValidatedItem :=
  (s.quantities.map fun kv => ValidatedItem.mk kv.1 kv.2).filter fun it =>
    decide (0 < it.quantity)

/-- The submission path of `handleCheckout` (reached when no checkout link
exists yet): reject an empty selection with a status message, otherwise call
`buy_products` and fold its response (`resp`) into the state; the `finally`
clears the submission flag. -/
def handleCheckoutSubmit (s : ClientPurchaseState)
    (resp : Except String (Option String)) : ClientPurchaseState × List ClientAction :=
  let items := submitItems s
  if items.isEmpty then
    ({ s with status := some "Select at least one product to continue." }, [])
  else
    match resp with
    | .ok (some url) =>
      if url = "" then
        ({ s with status := some "No checkout URL returned. Please try again."
                  isSubmitting := false }, [.callBuyProducts items])
      else
        ({ s with checkoutUrl := some url
                  status := some "Checkout ready! Click below to complete your purchase."
                  isSubmitting := false }, [.callBuyProducts items])
    | .ok none =>
      ({ s with status := some "No checkout URL returned. Please try again."
                isSubmitting := false }, [.callBuyProducts items])
    | .error _ =>
      ({ s with status := some "Failed to start checkout. Please try again."
                isSubmitting := false }, [.callBuyProducts items])

/-- widgets/list_products.tsx `handleCheckout`: `if (checkoutUrl) { openExternal(checkoutUrl); return; }`
(string truthiness: the empty string would not trigger the early return),
otherwise the submission path. -/
def handleCheckout (s : ClientPurchaseState)
    (resp : Except String (Option String)) : ClientPurchaseState × List ClientAction :=
  match s.checkoutUrl with
  | some url => if url = "" then handleCheckoutSubmit s resp else (s, [.openExternal url])
  | none => handleCheckoutSubmit s resp

/-- A demonstration input for the aggregation (the spec's own example:
two occurrences of p1 with quantities 2 and 1, one p2 with quantity 0). -/
def demoItems : List CheckoutItem :=
  [ { priceId := "p1", quantity := 2 },
    { priceId := "p2", quantity := 0 },
    { priceId := "p1", quantity := 1 } ]

/-- A decimal digit. -/
def isDigitChar (c : Char) : Bool :=
  decide (48 ≤ c.toNat ∧ c.toNat ≤ 57)

/-- Value of a list of decimal digit characters. -/
def digitsVal (cs : List Char) : Nat :=
  cs.foldl (fun acc c => 10 * acc + (c.toNat - 48)) 0

/-- ECMAScript array-index keys: canonical numeric strings (digits only, no
leading zero except `0` itself) whose value is below 2^32 - 1. A plain JS
object enumerates these keys before all other string keys. -/
def isArrayIndexKey (s : String) : Bool :=
  decide (s.data ≠ []) && s.data.all isDigitChar &&
    (decide (s.data = [Char.ofNat 48]) || decide (s.data.head? ≠ some (Char.ofNat 48))) &&
    decide (digitsVal s.data < 4294967295)

/-- Ascending numeric order on array-index keys. -/
def numKeyLe (a b : String) : Prop :=
  digitsVal a.data ≤ digitsVal b.data

instance : DecidableRel numKeyLe :=
  fun a b => inferInstanceAs (Decidable (digitsVal a.data ≤ digitsVal b.data))

/-- The key enumeration order of a plain JS object whose keys, in insertion
order, are `keys` (ECMAScript OrdinaryOwnPropertyKeys): array-index keys
first, in ascending numeric order, then the remaining keys in insertion
order. -/
def jsOwnKeysOrder (keys : List String) : List String :=
  List.insertionSort numKeyLe (keys.filter fun k => isArrayIndexKey k) ++
    keys.filter fun k => !isArrayIndexKey k

/-- `Object.entries` of the record modelled by the association list `l`:
its entries, enumerated in the object's key order. -/
def objectEntries (l : List (String × Int)) : List (String × Int) :=
  (jsOwnKeysOrder (l.map Prod.fst)).filterMap fun k =>
    (lookupAssoc l k).map fun v => (k, v)

/-- stripe.ts `getCheckoutSession`: the aggregated line items handed to
Stripe, `Object.entries(quantityByPriceId).map(([priceId, quantity]) => ...)`,
each entry a (priceId, quantity) pair. -/
def lineItems (items : List CheckoutItem) : List (String × Int) :=
  objectEntries (quantityByPriceId items)

/-- Two items whose priceIds are array-index strings given out of numeric
order. -/
def demoNumericItems : List CheckoutItem :=
  [ { priceId := "5", quantity := 1 },
    { priceId := "2", quantity := 1 } ]

/-! Lemmas about association-list lookup. -/

/-- Lookup distributes over append: the left list is consulted first. -/
theorem lookupAssoc_append {α : Type} (l m : List (String × α)) (p : String) :
    lookupAssoc (l ++ m) p =
      match lookupAssoc l p with
      | some v => some v
      | none => lookupAssoc m p := by
  induction l with
  | nil => simp [lookupAssoc]
  | cons kv rest ih =>
    by_cases h : kv.1 = p
    · simp [lookupAssoc, h]
    · simp [lookupAssoc, h, ih]

/-- Lookup after adding `d` to the value at one key. -/
theorem lookupAssoc_map_update (l : List (String × Int)) (pid p : String)
    (d : Int) :
    lookupAssoc (l.map fun kv => if kv.1 = pid then (kv.1, kv.2 + d) else kv) p =
      if pid = p then (lookupAssoc l p).map (· + d) else lookupAssoc l p := by
  induction l with
  | nil => by_cases h : pid = p <;> simp [lookupAssoc, h]
  | cons kv rest ih =>
    by_cases h1 : kv.1 = pid
    · by_cases h2 : pid = p
      · simp [lookupAssoc, h1, h2, h1.trans h2]
      · have h3 : ¬ kv.1 = p := by rw [h1]; exact h2
        simp [lookupAssoc, h1, h2, h3, ih]
    · by_cases h2 : kv.1 = p
      · have h3 : ¬ pid = p := fun hpp => h1 (h2.trans hpp.symm)
        have h4 : ¬ p = pid := fun hpp => h3 hpp.symm
        simp [lookupAssoc, h1, h2, h3, h4]
      · simp [lookupAssoc, h1, h2, ih]

/-- A key is present exactly when lookup succeeds. -/
theorem lookupAssoc_isSome_iff {α : Type} (l : List (String × α)) (p : String) :
    (lookupAssoc l p).isSome = true ↔ p ∈ l.map Prod.fst := by
  induction l with
  | nil => simp [lookupAssoc]
  | cons kv rest ih =>
    by_cases h : kv.1 = p
    · simp [lookupAssoc, h]
    · simp [lookupAssoc, h, ih, Ne.symm h]

/-! Lemmas about one aggregation step. -/

/-- Effect of `addItem` on lookup: the touched key gains the sanitized
quantity (starting from 0 when absent), every other key is unchanged. -/
theorem lookupAssoc_addItem (acc : List (String × Int)) (pid p : String) (q : ℚ) :
    lookupAssoc (addItem acc pid q) p =
      if pid = p then some ((lookupAssoc acc p).getD 0 + safeQuantity q)
      else lookupAssoc acc p := by
  cases hl : lookupAssoc acc pid with
  | some v =>
    simp only [addItem, hl]
    rw [lookupAssoc_map_update]
    by_cases h : pid = p
    · subst h
      rw [hl]
      simp
    · simp [h]
  | none =>
    simp only [addItem, hl]
    rw [lookupAssoc_append]
    by_cases h : pid = p
    · subst h
      rw [hl]
      simp [lookupAssoc]
    · cases hp : lookupAssoc acc p <;> simp [lookupAssoc, h, hp]

/-- Effect of `addItem` on the key list: a known key keeps the keys as they
are, a fresh key is appended. -/
theorem keys_addItem (acc : List (String × Int)) (pid : String) (q : ℚ) :
    (addItem acc pid q).map Prod.fst =
      if pid ∈ acc.map Prod.fst then acc.map Prod.fst
      else acc.map Prod.fst ++ [pid] := by
  unfold addItem
  cases hl : lookupAssoc acc pid with
  | some v =>
    have hmem : pid ∈ acc.map Prod.fst := by
      rw [← lookupAssoc_isSome_iff, hl]; rfl
    rw [if_pos hmem, List.map_map]
    apply List.map_congr_left
    intro kv _
    by_cases h : kv.1 = pid <;> simp [h]
  | none =>
    have hmem : pid ∉ acc.map Prod.fst := by
      rw [← lookupAssoc_isSome_iff, hl]; simp
    rw [if_neg hmem]
    simp

/-- Unfolding `sumSanitized` over a cons cell. -/
theorem sumSanitized_cons (it : CheckoutItem) (rest : List CheckoutItem) (p : String) :
    sumSanitized (it :: rest) p =
      if it.priceId = p then safeQuantity it.quantity + sumSanitized rest p
      else sumSanitized rest p := by
  by_cases h : it.priceId = p <;> simp [sumSanitized, h]

/-! The two structural lemmas about the whole fold. -/

/-- Lookup in the fold of `addItem` over the items, for an arbitrary
accumulator: each key ends at its accumulator value (default 0) plus the sum
of sanitized quantities of its occurrences. -/
theorem lookupAssoc_foldl_addItem (items : List CheckoutItem)
    (acc : List (String × Int)) (p : String) :
    lookupAssoc (items.foldl (fun a it => addItem a it.priceId it.quantity) acc) p =
      match lookupAssoc acc p with
      | some v => some (v + sumSanitized items p)
      | none =>
        if p ∈ items.map CheckoutItem.priceId then some (sumSanitized items p)
        else none := by
  induction items generalizing acc with
  | nil => cases hl : lookupAssoc acc p <;> simp [sumSanitized, hl]
  | cons it rest ih =>
    rw [List.foldl_cons, ih, lookupAssoc_addItem]
    by_cases h : it.priceId = p
    · cases hl : lookupAssoc acc p <;>
        (simp [h, hl, sumSanitized_cons]; try omega)
    · cases hl : lookupAssoc acc p <;>
        simp [h, hl, sumSanitized_cons, Ne.symm h]

/-- `firstOccAux` only consults membership in `seen`. -/
theorem firstOccAux_congr (l : List String) :
    ∀ s t : List String, (∀ x, x ∈ s ↔ x ∈ t) → firstOccAux s l = firstOccAux t l := by
  induction l with
  | nil => intro s t _; rfl
  | cons a rest ih =>
    intro s t h
    by_cases ha : a ∈ s
    · rw [firstOccAux, firstOccAux, if_pos ha, if_pos ((h a).1 ha), ih s t h]
    · rw [firstOccAux, firstOccAux, if_neg ha, if_neg (fun hat => ha ((h a).2 hat))]
      rw [ih (a :: s) (a :: t) (fun x => by simp [h x])]

/-- Keys of the fold of `addItem`: the accumulator keys followed by the
first occurrences of the remaining input ids. -/
theorem keys_foldl_addItem (items : List CheckoutItem) (acc : List (String × Int)) :
    (items.foldl (fun a it => addItem a it.priceId it.quantity) acc).map Prod.fst =
      acc.map Prod.fst ++ firstOccAux (acc.map Prod.fst) (items.map CheckoutItem.priceId) := by
  induction items generalizing acc with
  | nil => simp [firstOccAux]
  | cons it rest ih =>
    rw [List.foldl_cons, ih, keys_addItem, List.map_cons, firstOccAux]
    by_cases h : it.priceId ∈ acc.map Prod.fst
    · rw [if_pos h, if_pos h]
    · rw [if_neg h, if_neg h, List.append_assoc]
      congr 1
      rw [firstOccAux_congr (rest.map CheckoutItem.priceId)
        (acc.map Prod.fst ++ [it.priceId]) (it.priceId :: acc.map Prod.fst)
        (fun x => by simp [or_comm])]
      simp

/-- Everything `firstOccAux` emits comes from its input list. -/
theorem mem_firstOccAux (l : List String) :
    ∀ (seen : List String) (x : String), x ∈ firstOccAux seen l → x ∈ l := by
  induction l with
  | nil => intro seen x hx; simp [firstOccAux] at hx
  | cons a rest ih =>
    intro seen x hx
    by_cases ha : a ∈ seen
    · rw [firstOccAux, if_pos ha] at hx
      exact List.mem_cons_of_mem a (ih seen x hx)
    · rw [firstOccAux, if_neg ha] at hx
      rcases List.mem_cons.1 hx with h | h
      · exact h ▸ List.mem_cons_self a rest
      · exact List.mem_cons_of_mem a (ih (a :: seen) x h)

/-- Looking every key of `ks` up in `l` and keeping the hits reproduces
`ks` itself when every key is present. -/
theorem map_fst_filterMap_lookup (l : List (String × Int)) (ks : List String)
    (h : ∀ k ∈ ks, k ∈ l.map Prod.fst) :
    (ks.filterMap fun k => (lookupAssoc l k).map fun v => (k, v)).map Prod.fst = ks := by
  induction ks with
  | nil => rfl
  | cons k rest ih =>
    have hk : (lookupAssoc l k).isSome = true :=
      (lookupAssoc_isSome_iff l k).2 (h k (List.mem_cons_self k rest))
    cases hl : lookupAssoc l k with
    | none => rw [hl] at hk; simp at hk
    | some v =>
      simp only [List.filterMap_cons, hl, Option.map_some, List.map_cons]
      exact congrArg (k :: ·) (ih fun x hx => h x (List.mem_cons_of_mem k hx))

/-- The enumeration order permutes no key in: everything it lists is a key. -/
theorem mem_jsOwnKeysOrder (keys : List String) (k : String)
    (h : k ∈ jsOwnKeysOrder keys) : k ∈ keys := by
  rcases List.mem_append.1 h with h1 | h1
  · exact List.mem_of_mem_filter
      ((List.perm_insertionSort numKeyLe _).mem_iff.1 h1)
  · exact List.mem_of_mem_filter h1

/-! The claims. -/

/-- C1: for every non-empty input list of `CheckoutItem`, the priceIds of
the aggregated output are exactly the distinct priceIds of the input, and
the output quantity of each priceId is the sum of `max(1, floor(quantity))`
over the input entries carrying it. -/
theorem aggregate_exact (items : List CheckoutItem) (_hne : items ≠ []) (p : String) :
    (p ∈ (quantityByPriceId items).map Prod.fst ↔ p ∈ items.map CheckoutItem.priceId) ∧
    lookupAssoc (quantityByPriceId items) p =
      (if p ∈ items.map CheckoutItem.priceId then some (sumSanitized items p)
       else none) := by
  have hc : lookupAssoc (quantityByPriceId items) p =
      (if p ∈ items.map CheckoutItem.priceId then some (sumSanitized items p)
       else none) := by
    have h := lookupAssoc_foldl_addItem items [] p
    simpa [quantityByPriceId, lookupAssoc] using h
  refine ⟨?_, hc⟩
  rw [← lookupAssoc_isSome_iff, hc]
  by_cases h : p ∈ items.map CheckoutItem.priceId <;> simp [h]

/-- Witness for C1 at the spec's own example `[(p1,2),(p2,0),(p1,1)]`. -/
theorem aggregate_exact_witness :
    (("p1" ∈ (quantityByPriceId demoItems).map Prod.fst ↔
        "p1" ∈ demoItems.map CheckoutItem.priceId) ∧
      lookupAssoc (quantityByPriceId demoItems) "p1" =
        (if "p1" ∈ demoItems.map CheckoutItem.priceId
         then some (sumSanitized demoItems "p1") else none)) ∧
    lookupAssoc (quantityByPriceId demoItems) "p1" = some 3 ∧
    lookupAssoc (quantityByPriceId demoItems) "p2" = some 1 :=
  ⟨aggregate_exact demoItems (by decide) "p1", by decide, by decide⟩

/-- C7 counterexample: with array-index priceIds given as `5` then `2`,
`Object.entries` emits `2` before `5` (ascending numeric order), not the
first-seen order `5, 2` the claim states for every input. -/
theorem aggregate_emission_order_counterexample :
    (lineItems demoNumericItems).map Prod.fst = ["2", "5"] ∧
    firstOccAux [] (demoNumericItems.map CheckoutItem.priceId) = ["5", "2"] ∧
    (lineItems demoNumericItems).map Prod.fst ≠
      firstOccAux [] (demoNumericItems.map CheckoutItem.priceId) := by
  decide

/-- C7 (amended): for every non-empty input list the aggregated line items
are emitted deterministically in the plain-object key enumeration order:
the priceIds that are array-index strings first, in ascending numeric
order, followed by the remaining priceIds in the insertion order of each
one's first occurrence; in particular, when no priceId is an array-index
string, the emission order is exactly first-seen order. -/
theorem aggregate_emission_order (items : List CheckoutItem) (_hne : items ≠ []) :
    (lineItems items).map Prod.fst =
      List.insertionSort numKeyLe
        ((firstOccAux [] (items.map CheckoutItem.priceId)).filter fun k =>
          isArrayIndexKey k) ++
        (firstOccAux [] (items.map CheckoutItem.priceId)).filter
          (fun k => !isArrayIndexKey k) ∧
    ((∀ it ∈ items, isArrayIndexKey it.priceId = false) →
      (lineItems items).map Prod.fst =
        firstOccAux [] (items.map CheckoutItem.priceId)) := by
  have hkeys : (quantityByPriceId items).map Prod.fst =
      firstOccAux [] (items.map CheckoutItem.priceId) := by
    have h := keys_foldl_addItem items []
    simpa [quantityByPriceId] using h
  have hmain : (lineItems items).map Prod.fst =
      jsOwnKeysOrder (firstOccAux [] (items.map CheckoutItem.priceId)) := by
    unfold lineItems objectEntries
    rw [hkeys]
    apply map_fst_filterMap_lookup
    intro k hk
    rw [hkeys]
    exact mem_jsOwnKeysOrder _ _ hk
  refine ⟨hmain, fun hnone => ?_⟩
  have hfo : ∀ k ∈ firstOccAux [] (items.map CheckoutItem.priceId),
      isArrayIndexKey k = false := by
    intro k hk
    rcases List.mem_map.1 (mem_firstOccAux _ _ _ hk) with ⟨it, hit, rfl⟩
    exact hnone it hit
  rw [hmain]
  unfold jsOwnKeysOrder
  rw [List.filter_eq_nil_iff.2 (fun k hk => by simp [hfo k hk]),
    List.filter_eq_self.2 (fun k hk => by simp [hfo k hk])]
  rfl

/-- Witness for C7's amended statement: the example input, whose priceIds
are not array-index strings, is emitted p1 before p2 (first-seen order). -/
theorem aggregate_emission_order_witness :
    ((lineItems demoItems).map Prod.fst =
      List.insertionSort numKeyLe
        ((firstOccAux [] (demoItems.map CheckoutItem.priceId)).filter fun k =>
          isArrayIndexKey k) ++
        (firstOccAux [] (demoItems.map CheckoutItem.priceId)).filter
          (fun k => !isArrayIndexKey k) ∧
    ((∀ it ∈ demoItems, isArrayIndexKey it.priceId = false) →
      (lineItems demoItems).map Prod.fst =
        firstOccAux [] (demoItems.map CheckoutItem.priceId))) ∧
    (lineItems demoItems).map Prod.fst = ["p1", "p2"] :=
  ⟨aggregate_emission_order demoItems (by decide), by decide⟩

/-- C2 counterexample: a regular POST to `/mcp` carrying an unknown session
token makes the handler construct a fresh transport and delegate the
request to it — it does not take the direct 400 branch. -/
theorem mcp_unknown_token_counterexample :
    handleMcpAll HttpMethod.POST (some "stale-session") [] =
      McpOutcome.createAndDelegate ∧
    handleMcpAll HttpMethod.POST (some "stale-session") [] ≠
      McpOutcome.respond400 := by
  decide

/-- C2 (amended): for a request with a non-empty token unknown to the
registry, the handler creates a fresh transport and delegates when the
method is POST or GET (adding nothing to the registry itself), and answers
400 without creating anything only for other methods. -/
theorem mcp_unknown_token_behavior (sid : String) (ts : List (String × Nat))
    (hsid : sid ≠ "") (hun : lookupAssoc ts sid = none) :
    handleMcpAll HttpMethod.POST (some sid) ts = McpOutcome.createAndDelegate ∧
    handleMcpAll HttpMethod.GET (some sid) ts = McpOutcome.createAndDelegate ∧
    handleMcpAll HttpMethod.DELETE (some sid) ts = McpOutcome.respond400 ∧
    handleMcpAll HttpMethod.other (some sid) ts = McpOutcome.respond400 := by
  simp [handleMcpAll, resolveTransport, hsid, hun]

/-- Witness for C2's amended statement at a concrete unknown token. -/
theorem mcp_unknown_token_behavior_witness :
    handleMcpAll HttpMethod.POST (some "gone-session") [] =
      McpOutcome.createAndDelegate ∧
    handleMcpAll HttpMethod.GET (some "gone-session") [] =
      McpOutcome.createAndDelegate ∧
    handleMcpAll HttpMethod.DELETE (some "gone-session") [] =
      McpOutcome.respond400 ∧
    handleMcpAll HttpMethod.other (some "gone-session") [] =
      McpOutcome.respond400 :=
  mcp_unknown_token_behavior "gone-session" [] (by decide) rfl

/-- C3 counterexample: an item whose priceId is the empty string passes the
zod validation (`z.string()` accepts every string), although the claim
requires such an input to be rejected. -/
theorem buy_input_empty_priceId_accepted :
    validateBuyProductsInput [{ priceId := "", quantity := 1 }] = true ∧
    ¬ (∀ it ∈ ([{ priceId := "", quantity := 1 }] : List CheckoutItem),
        it.priceId ≠ "") := by
  refine ⟨by decide, fun h => ?_⟩
  exact h { priceId := "", quantity := 1 } (by decide) rfl

/-- C3 (amended): the `buy_products` input passes validation exactly when
the items list is non-empty and every entry has an integral quantity at
least 1 (any string priceId, the empty one included, is accepted); a
rejected input never reaches the handler, so no aggregation and no external
call happens for it. -/
theorem buy_input_validation (items : List CheckoutItem) :
    (validateBuyProductsInput items = true ↔
      items ≠ [] ∧ ∀ it ∈ items, it.quantity.den = 1 ∧ 1 ≤ it.quantity) ∧
    (validateBuyProductsInput items = false →
      ∀ (m : Bool) (now : Nat) (ext : Except String StripeSession),
        buyProductsDispatch m now items ext = none) := by
  constructor
  · simp only [validateBuyProductsInput, Bool.and_eq_true, decide_eq_true_eq,
      List.all_eq_true, validItem]
    constructor
    · rintro ⟨h1, h2⟩
      refine ⟨List.length_pos.1 h1, fun it hit => ?_⟩
      simpa using h2 it hit
    · rintro ⟨h1, h2⟩
      refine ⟨List.length_pos.2 h1, fun it hit => ?_⟩
      simpa using h2 it hit
  · intro hf m now ext
    simp [buyProductsDispatch, hf]

/-- Witness for C3's amended statement: a singleton with integral quantity
passes; the empty list is rejected and dispatch performs nothing. -/
theorem buy_input_validation_witness :
    validateBuyProductsInput [{ priceId := "p1", quantity := 2 }] = true ∧
    buyProductsDispatch true 0 [] (Except.error "gateway down") = none :=
  ⟨(buy_input_validation [{ priceId := "p1", quantity := 2 }]).1.mpr
      ⟨by decide, by decide⟩,
   (buy_input_validation []).2 (by decide) true 0 (Except.error "gateway down")⟩

/-- C4 counterexample: with `STRIPE_SECRET_KEY` present but invalid, no
valid provider credential exists, yet `list_products` throws the
configuration error instead of returning the fallback dataset. -/
theorem list_products_invalid_key_counterexample :
    isValidStripeKey (some "whsec_not_a_secret_key") = false ∧
    useMock (some "whsec_not_a_secret_key") = false ∧
    listProductsHandler (some "whsec_not_a_secret_key") [] "widget" =
      Except.error notConfiguredMsg :=
  ⟨by decide, by decide, rfl⟩

/-- C4 (amended): whenever the provider key is absent (mock mode), the
`list_products` handler returns the fixed fallback dataset, of the same
`FormattedProduct` shape as the live path, and never throws; a key that is
present but invalid instead makes the handler throw. -/
theorem list_products_fallback (key : Option String) (ps : List StripeProduct)
    (widgetHtml : String) (h : useMock key = true) :
    listProductsHandler key ps widgetHtml =
      Except.ok { content := [widgetHtml],
                  structuredContent := StructuredContent.products getMockProducts,
                  isError := false } := by
  simp [listProductsHandler, h]

/-- Witness for C4's amended statement with the key absent. -/
theorem list_products_fallback_witness :
    listProductsHandler none [] "widget" =
      Except.ok { content := ["widget"],
                  structuredContent := StructuredContent.products getMockProducts,
                  isError := false } :=
  list_products_fallback none [] "widget" rfl

/-- C5: in live mode, when the external checkout call throws, the handler
returns an error-flagged result with empty structured content and the
human-readable message `Checkout failed. Try again.`, performs exactly one
external call (no retry), and returns normally (no exception escapes the
handler, which is a total function into results). -/
theorem buy_gateway_failure_result (now : Nat) (items : List ValidatedItem)
    (e : String) :
    buyProductsHandler false now items (Except.error e) =
      ({ content := ["Checkout failed. Try again."],
         structuredContent := StructuredContent.empty,
         isError := true }, 1) := rfl

/-- C6: in mock mode the handler performs zero external calls and returns a
result whose structured content is a `checkout` pair of strings — the
time-stamped mock id and the mock URL — with the error flag clear, the same
output shape as the live success path. -/
theorem buy_mock_no_gateway (now : Nat) (items : List ValidatedItem)
    (ext : Except String StripeSession) :
    (buyProductsHandler true now items ext).2 = 0 ∧
    (buyProductsHandler true now items ext).1.structuredContent =
      StructuredContent.checkout ("cs_mock_" ++ toString now) (mockCheckoutUrl items) ∧
    (buyProductsHandler true now items ext).1.isError = false :=
  ⟨rfl, rfl, rfl⟩

/-- C10: in mock mode the checkout URL is a function of the items alone —
two invocations at different times (and with different would-be external
outcomes) produce the same URL, the fixed mock prefix followed by the
URL-encoded JSON of the items — while the session id carries the
invocation time. -/
theorem mock_url_determined_by_items (n1 n2 : Nat) (items : List ValidatedItem)
    (e1 e2 : Except String StripeSession) :
    (buyProductsHandler true n1 items e1).1.structuredContent =
      StructuredContent.checkout ("cs_mock_" ++ toString n1)
        ("https://checkout.stripe.com/mock?items=" ++
          encodeURIComponent (jsonOfItems items)) ∧
    (buyProductsHandler true n2 items e2).1.structuredContent =
      StructuredContent.checkout ("cs_mock_" ++ toString n2)
        ("https://checkout.stripe.com/mock?items=" ++
          encodeURIComponent (jsonOfItems items)) :=
  ⟨rfl, rfl⟩

/-- C8: once `checkoutUrl` holds a link (a non-empty string, the only kind
the widget ever stores), `handleCheckout` performs the external-open action
on that link and returns with the state unchanged — in particular it does
not call `buy_products` again and does not change `checkoutUrl`. -/
theorem submit_after_link_opens_existing (s : ClientPurchaseState) (url : String)
    (h1 : s.checkoutUrl = some url) (h2 : url ≠ "")
    (resp : Except String (Option String)) :
    handleCheckout s resp = (s, [ClientAction.openExternal url]) := by
  unfold handleCheckout
  rw [h1]
  simp [h2]

/-- Witness for C8 at a concrete ready state. -/
theorem submit_after_link_opens_existing_witness :
    handleCheckout
        { quantities := [("price_1", 2)], status := none,
          checkoutUrl := some "https://checkout.example/cs_1", isSubmitting := false }
        (Except.ok none) =
      ({ quantities := [("price_1", 2)], status := none,
         checkoutUrl := some "https://checkout.example/cs_1", isSubmitting := false },
       [ClientAction.openExternal "https://checkout.example/cs_1"]) :=
  submit_after_link_opens_existing _ "https://checkout.example/cs_1" rfl
    (by decide) _

/-- C9: the live catalog formatting keeps exactly the products that have a
default price (one output entry per such product), and every returned
product is the formatting of such a product with its default price — in
particular its `priceId` is the id of that default price. -/
theorem products_default_price_shape (ps : List StripeProduct) :
    (formatProducts ps).length =
      (ps.filter fun p => p.default_price.isSome).length ∧
    ∀ fp, fp ∈ formatProducts ps ↔
      ∃ p, p ∈ ps ∧ ∃ pr, p.default_price = some pr ∧ fp = formatOne p pr := by
  constructor
  · simp [formatProducts]
  · intro fp
    constructor
    · intro hfp
      rcases List.mem_map.1 hfp with ⟨p, hpf, rfl⟩
      rcases List.mem_filter.1 hpf with ⟨hps, hsome⟩
      rcases Option.isSome_iff_exists.1 hsome with ⟨pr, hpr⟩
      exact ⟨p, hps, pr, hpr, by rw [hpr]; rfl⟩
    · rintro ⟨p, hps, pr, hpr, rfl⟩
      exact List.mem_map.2
        ⟨p, List.mem_filter.2 ⟨hps, by simp [hpr]⟩, by rw [hpr]; rfl⟩

end Skybridge
